import Mathlib

/-!
# mediasoup worker: the `Worker` registry and its request dispatch

A shallow embedding of `worker/src/Worker.cpp`.  The `Worker` owns two maps
(`mapWebRtcServers`, `mapRouters`) and a `closed` flag.  Every member function
is a Lean function from the state before the call to an `Outcome`: the state
after the call, the trace of externally visible calls it made, in order, and
the exception that escaped it, if any.

Classes whose bodies live in other translation units (`RTC::Router`,
`RTC::WebRtcServer`, `Settings`, the channel sockets, libuv) are represented
by the calls made on them (constructors of `Effect`) and, where such a call
can throw or return data, by a field of `Env`.
-/

/-! ## JSON (nlohmann::json) -/

/-- A `nlohmann::json` value. -/
inductive Json where
  | null
  | bool (b : Bool)
  | number (n : Int)
  | string (s : String)
  | array (items : List Json)
  | object (members : List (String × Json))
  deriving Repr

/-- The members of a JSON object, `key -> value`. -/
abbrev JsonObject := List (String × Json)

namespace Json

/-- `json::find(key)`: the member stored under `key`; `end()` (here `none`)
when the key is missing or the value is not an object. -/
def find (j : Json) (key : String) : Option Json :=
  match j with
  | object members => members.lookup key
  | _ => none

/-- `json::is_string()`. -/
def is_string : Json → Bool
  | string _ => true
  | _ => false

/-- `json::get<std::string>()` on a value for which `is_string()` holds. -/
def get_string : Json → String
  | string s => s
  | _ => ""

end Json

namespace JsonObject

/-- `jsonObject[key] = value` on an object: assigns the member, creating it
when it is missing. -/
def set (o : JsonObject) (key : String) (value : Json) : JsonObject :=
  match o with
  | [] => [(key, value)]
  | (k, v) :: rest => if k = key then (key, value) :: rest else (k, v) :: set rest key value

/-- `it->emplace_back(value)` through the iterator `it = jsonObject.find(key)`:
appends `value` to the array stored under `key`. -/
def emplace_back (o : JsonObject) (key : String) (value : Json) : JsonObject :=
  match o with
  | [] => []
  | (k, v) :: rest =>
    if k = key then
      match v with
      | Json.array items => (k, Json.array (items ++ [value])) :: rest
      | _ => (k, v) :: rest
    else (k, v) :: emplace_back rest key value

end JsonObject

/-! ## Errors, requests, collaborators -/

/-- The two exception classes: `MediaSoupError` and its subclass
`MediaSoupTypeError`. -/
inductive ErrorKind where
  | error
  | typeError
  deriving DecidableEq, Repr

/-- A thrown `MediaSoupError`; `what` is the text of `error.what()`. -/
structure MediaSoupError where
  kind : ErrorKind
  what : String
  deriving DecidableEq, Repr

/-- `MS_THROW_ERROR(desc, ...)`: throws a `MediaSoupError` carrying the
formatted text. -/
def MS_THROW_ERROR (msg : String) : MediaSoupError :=
  { kind := ErrorKind.error, what := msg }

/-- `MS_THROW_TYPE_ERROR(desc, ...)`: throws a `MediaSoupTypeError` carrying the
formatted text. -/
def MS_THROW_TYPE_ERROR (msg : String) : MediaSoupError :=
  { kind := ErrorKind.typeError, what := msg }

/-- Modelled from the spec: the enumeration `Channel::ChannelRequest::MethodId`,
whose declaration is not among the sources.  The nine identifiers that
`Worker::HandleRequest` names in its `switch` are constructors of their own;
every other identifier (`ROUTER_DUMP`, `TRANSPORT_CLOSE`, `TRANSPORT_PRODUCE`,
...) is `OTHER code`. -/
inductive MethodId where
  | WORKER_CLOSE
  | WORKER_DUMP
  | WORKER_GET_RESOURCE_USAGE
  | WORKER_UPDATE_SETTINGS
  | WORKER_CREATE_WEBRTC_SERVER
  | WEBRTC_SERVER_CLOSE
  | WEBRTC_SERVER_DUMP
  | WORKER_CREATE_ROUTER
  | ROUTER_CLOSE
  | OTHER (code : Nat)
  deriving DecidableEq, Repr

/-- Modelled from the spec: a control-channel request `(id, method, internal,
data)`; the class `Channel::ChannelRequest` is not among the sources.
`methodId` is the enumerator the channel derived from `method`. -/
structure ChannelRequest where
  id : Nat
  method : String
  methodId : MethodId
  internal : Json
  data : Json

/-- Modelled from the spec: a payload-channel request `(id, method, internal,
data)`; the class `PayloadChannel::PayloadChannelRequest` is not among the
sources. -/
structure PayloadChannelRequest where
  id : Nat
  method : String
  internal : Json
  data : Json

/-- Modelled from the spec: a payload-channel notification `(event, internal,
data)`; the class `PayloadChannel::Notification` is not among the sources. -/
structure Notification where
  event : String
  internal : Json
  data : Json

/-- An `RTC::Router` as the Worker sees it: the public member
`const std::string id` ("passed by argument") of `Router.hpp`.  Everything else
a Router holds is private to it. -/
structure Router where
  id : String
  deriving DecidableEq, Repr

/-- Modelled from the spec: an `RTC::WebRtcServer` as the Worker sees it, its
`id` member (read at `webRtcServer->id`); the class declaration is not among
the sources.  The id is the stable string identifier given at creation. -/
structure WebRtcServer where
  id : String
  deriving DecidableEq, Repr

/-- `uv_timeval_t`. -/
structure UvTimeval where
  tv_sec : Nat
  tv_usec : Nat

/-- `uv_rusage_t`. -/
structure UvRusage where
  ru_utime : UvTimeval
  ru_stime : UvTimeval
  ru_maxrss : Nat
  ru_ixrss : Nat
  ru_idrss : Nat
  ru_isrss : Nat
  ru_minflt : Nat
  ru_majflt : Nat
  ru_nswap : Nat
  ru_inblock : Nat
  ru_oublock : Nat
  ru_msgsnd : Nat
  ru_msgrcv : Nat
  ru_nsignals : Nat
  ru_nvcsw : Nat
  ru_nivcsw : Nat

/-- What the code outside `Worker.cpp` answers when the Worker calls it.  Each
field that is a handler or a constructor gives the exception the call throws
(`none`: it returns normally). -/
structure Env where
  /-- `Logger::pid`. -/
  pid : Nat
  /-- `uv_getrusage(&uvRusage)`: the error code and the filled record. -/
  uv_getrusage : Int × UvRusage
  /-- `uv_strerror(err)`. -/
  uv_strerror : Int → String
  /-- `new RTC::WebRtcServer(webRtcServerId, data)`. -/
  newWebRtcServer : String → Json → Option MediaSoupError
  /-- `Settings::HandleRequest(request)`. -/
  settingsHandleRequest : ChannelRequest → Option MediaSoupError
  /-- `webRtcServer->HandleRequest(request)`. -/
  webRtcServerHandleRequest : WebRtcServer → ChannelRequest → Option MediaSoupError
  /-- `router->HandleRequest(request)`, control channel. -/
  routerHandleRequest : Router → ChannelRequest → Option MediaSoupError
  /-- `router->HandleRequest(request)`, payload channel. -/
  routerHandlePayloadRequest : Router → PayloadChannelRequest → Option MediaSoupError
  /-- `router->HandleNotification(notification)`. -/
  routerHandleNotification : Router → Notification → Option MediaSoupError

/-- The calls a Worker member function makes on other objects, as they appear
in the trace of an `Outcome`. -/
inductive Effect where
  /-- `request->Accept()` or `request->Accept(data)` on the control-channel
  request with this id. -/
  | accept (requestId : Nat) (data : Option Json)
  /-- `delete this->signalsHandler`. -/
  | deleteSignalsHandler
  /-- `new RTC::Router(routerId, this)` returned. -/
  | newRouter (router : Router)
  /-- `delete router`. -/
  | deleteRouter (router : Router)
  /-- `new RTC::WebRtcServer(webRtcServerId, data)` returned. -/
  | newWebRtcServer (webRtcServer : WebRtcServer)
  /-- `delete webRtcServer`. -/
  | deleteWebRtcServer (webRtcServer : WebRtcServer)
  /-- `DepUsrSCTP::CloseChecker()`. -/
  | closeChecker
  /-- `this->channel->Close()`. -/
  | channelClose
  /-- `this->payloadChannel->Close()`. -/
  | payloadChannelClose
  /-- `Settings::HandleRequest(request)`. -/
  | settingsHandleRequest (request : ChannelRequest)
  /-- `webRtcServer->HandleRequest(request)`. -/
  | webRtcServerHandleRequest (webRtcServer : WebRtcServer) (request : ChannelRequest)
  /-- `router->HandleRequest(request)`, control channel. -/
  | routerHandleRequest (router : Router) (request : ChannelRequest)
  /-- `router->HandleRequest(request)`, payload channel. -/
  | routerHandlePayloadRequest (router : Router) (request : PayloadChannelRequest)
  /-- `router->HandleNotification(notification)`. -/
  | routerHandleNotification (router : Router) (notification : Notification)

namespace Effect

/-- Is this a call of `request->Accept`? -/
def isAccept : Effect → Bool
  | accept _ _ => true
  | _ => false

/-- Is this `new RTC::Router`? -/
def isNewRouter : Effect → Bool
  | newRouter _ => true
  | _ => false

/-- Is this `delete router` of some Router? -/
def isDeleteRouter : Effect → Bool
  | deleteRouter _ => true
  | _ => false

/-- Is this `delete webRtcServer` of some WebRtcServer? -/
def isDeleteWebRtcServer : Effect → Bool
  | deleteWebRtcServer _ => true
  | _ => false

/-- Is this `delete router` of the Router `r`? -/
def isDeleteOfRouter (r : Router) : Effect → Bool
  | deleteRouter r' => decide (r' = r)
  | _ => false

/-- Is this `delete webRtcServer` of the WebRtcServer `s`? -/
def isDeleteOfWebRtcServer (s : WebRtcServer) : Effect → Bool
  | deleteWebRtcServer s' => decide (s' = s)
  | _ => false

/-- Is this the closing of the Channel or of the PayloadChannel? -/
def isChannelClose : Effect → Bool
  | channelClose => true
  | payloadChannelClose => true
  | _ => false

/-- The Router a message is handed to, when this is a delivery to a Router
(`HandleRequest` of either channel, or `HandleNotification`). -/
def deliveredTo : Effect → Option Router
  | routerHandleRequest r _ => some r
  | routerHandlePayloadRequest r _ => some r
  | routerHandleNotification r _ => some r
  | _ => none

end Effect

/-! ## The Worker -/

/-- The Worker's own state: the `closed` flag and the two
`absl::flat_hash_map<std::string, T*>` members.  A map is an association list
without duplicate keys; its entry order stands for the iteration order. -/
structure Worker where
  closed : Bool
  mapWebRtcServers : AList (fun _ : String => WebRtcServer)
  mapRouters : AList (fun _ : String => Router)

/-- What a call of a Worker member function leaves behind: the Worker after
the call, the calls it made on other objects in order, and either the value it
returned or the exception that escaped it. -/
structure Outcome (α : Type) where
  worker : Worker
  trace : List Effect
  result : Except MediaSoupError α

namespace Outcome

/-- The call returned normally. -/
def returned {α : Type} (o : Outcome α) : Bool :=
  match o.result with
  | Except.ok _ => true
  | Except.error _ => false

/-- The call raised an error. -/
def threw {α : Type} (o : Outcome α) : Bool :=
  match o.result with
  | Except.ok _ => false
  | Except.error _ => true

/-- How many times the call invoked `request->Accept`. -/
def accepts {α : Type} (o : Outcome α) : Nat :=
  o.trace.countP Effect.isAccept

/-- The Routers that were handed a message during the call, in order. -/
def deliveries {α : Type} (o : Outcome α) : List Router :=
  o.trace.filterMap Effect.deliveredTo

end Outcome

/-- `SIGINT` of `<csignal>`. -/
def SIGINT : Int := 2

/-- `SIGTERM` of `<csignal>`. -/
def SIGTERM : Int := 15

namespace Worker

/-- The Worker right after construction: not closed, both maps empty. -/
def init : Worker :=
  { closed := false, mapWebRtcServers := ∅, mapRouters := ∅ }

/-- `Worker::Close()`. -/
def Close (w : Worker) : Outcome Unit :=
  if w.closed then
    { worker := w, trace := [], result := Except.ok () }
  else
    -- this->closed = true; delete this->signalsHandler;
    let w1 : Worker := { w with closed := true }
    let t1 : List Effect := [Effect.deleteSignalsHandler]
    -- for (auto& kv : this->mapRouters) delete kv.second;  this->mapRouters.clear();
    let t2 := t1 ++ w1.mapRouters.entries.map (fun kv => Effect.deleteRouter kv.2)
    let w2 : Worker := { w1 with mapRouters := ∅ }
    -- for (auto& kv : this->mapWebRtcServers) delete kv.second;  this->mapWebRtcServers.clear();
    let t3 := t2 ++ w2.mapWebRtcServers.entries.map (fun kv => Effect.deleteWebRtcServer kv.2)
    let w3 : Worker := { w2 with mapWebRtcServers := ∅ }
    -- DepUsrSCTP::CloseChecker(); channel->Close(); payloadChannel->Close();
    { worker := w3,
      trace := t3 ++ [Effect.closeChecker, Effect.channelClose, Effect.payloadChannelClose],
      result := Except.ok () }

/-- `Worker::~Worker()`. -/
def destructor (w : Worker) : Outcome Unit :=
  if !w.closed then Close w
  else { worker := w, trace := [], result := Except.ok () }

/-- `Worker::FillJson(json& jsonObject) const`, on a `jsonObject` that is an
object (every caller passes `json::object()`). -/
def FillJson (env : Env) (w : Worker) (jsonObject : JsonObject) : JsonObject :=
  -- Add pid.
  let j1 := jsonObject.set "pid" (Json.number env.pid)
  -- Add webRtcServerIds.
  let j2 := j1.set "webRtcServerIds" (Json.array [])
  let j3 := w.mapWebRtcServers.entries.foldl
    (fun j kv => j.emplace_back "webRtcServerIds" (Json.string kv.1)) j2
  -- Add routerIds.
  let j4 := j3.set "routerIds" (Json.array [])
  w.mapRouters.entries.foldl
    (fun j kv => j.emplace_back "routerIds" (Json.string kv.1)) j4

/-- The 64-bit unsigned wrap of C++ `uint64_t` arithmetic. -/
def wrap64 (n : Nat) : Nat := n % 2 ^ 64

/-- `Worker::FillJsonResourceUsage(json& jsonObject) const`, on a `jsonObject`
that is an object. -/
def FillJsonResourceUsage (env : Env) (jsonObject : JsonObject) :
    Except MediaSoupError JsonObject :=
  let err := env.uv_getrusage.1
  let uvRusage := env.uv_getrusage.2
  if err ≠ 0 then
    Except.error (MS_THROW_ERROR ("uv_getrusagerequest() failed: " ++ env.uv_strerror err))
  else
    let ms (t : UvTimeval) : Nat := wrap64 (wrap64 (t.tv_sec * 1000) + t.tv_usec / 1000)
    Except.ok
      ((((((((((((((((jsonObject.set "ru_utime" (Json.number (ms uvRusage.ru_utime))).set
        "ru_stime" (Json.number (ms uvRusage.ru_stime))).set
        "ru_maxrss" (Json.number uvRusage.ru_maxrss)).set
        "ru_ixrss" (Json.number uvRusage.ru_ixrss)).set
        "ru_idrss" (Json.number uvRusage.ru_idrss)).set
        "ru_isrss" (Json.number uvRusage.ru_isrss)).set
        "ru_minflt" (Json.number uvRusage.ru_minflt)).set
        "ru_majflt" (Json.number uvRusage.ru_majflt)).set
        "ru_nswap" (Json.number uvRusage.ru_nswap)).set
        "ru_inblock" (Json.number uvRusage.ru_inblock)).set
        "ru_oublock" (Json.number uvRusage.ru_oublock)).set
        "ru_msgsnd" (Json.number uvRusage.ru_msgsnd)).set
        "ru_msgrcv" (Json.number uvRusage.ru_msgrcv)).set
        "ru_nsignals" (Json.number uvRusage.ru_nsignals)).set
        "ru_nvcsw" (Json.number uvRusage.ru_nvcsw)).set
        "ru_nivcsw" (Json.number uvRusage.ru_nivcsw))

/-- `Worker::SetNewWebRtcServerIdFromInternal(internal, webRtcServerId) const`:
the id it assigns to `webRtcServerId`, or the error it throws. -/
def SetNewWebRtcServerIdFromInternal (w : Worker) (internal : Json) :
    Except MediaSoupError String :=
  match internal.find "webRtcServerId" with
  | none => Except.error (MS_THROW_ERROR "missing internal.webRtcServerId")
  | some j =>
    if !j.is_string then
      Except.error (MS_THROW_ERROR "missing internal.webRtcServerId")
    else
      let webRtcServerId := j.get_string
      if (w.mapWebRtcServers.lookup webRtcServerId).isSome then
        Except.error (MS_THROW_ERROR "a WebRtcServer with same webRtcServerId already exists")
      else
        Except.ok webRtcServerId

/-- `Worker::GetWebRtcServerFromInternal(internal) const`. -/
def GetWebRtcServerFromInternal (w : Worker) (internal : Json) :
    Except MediaSoupError WebRtcServer :=
  match internal.find "webRtcServerId" with
  | none => Except.error (MS_THROW_ERROR "missing internal.webRtcServerId")
  | some j =>
    if !j.is_string then
      Except.error (MS_THROW_ERROR "missing internal.webRtcServerId")
    else
      match w.mapWebRtcServers.lookup j.get_string with
      | none => Except.error (MS_THROW_ERROR "WebRtcServer not found")
      | some webRtcServer => Except.ok webRtcServer

/-- `Worker::SetNewRouterIdFromInternal(internal, routerId) const`: the id it
assigns to `routerId`, or the error it throws. -/
def SetNewRouterIdFromInternal (w : Worker) (internal : Json) :
    Except MediaSoupError String :=
  match internal.find "routerId" with
  | none => Except.error (MS_THROW_ERROR "missing internal.routerId")
  | some j =>
    if !j.is_string then
      Except.error (MS_THROW_ERROR "missing internal.routerId")
    else
      let routerId := j.get_string
      if (w.mapRouters.lookup routerId).isSome then
        Except.error (MS_THROW_ERROR "a Router with same routerId already exists")
      else
        Except.ok routerId

/-- `Worker::GetRouterFromInternal(internal) const`. -/
def GetRouterFromInternal (w : Worker) (internal : Json) :
    Except MediaSoupError Router :=
  match internal.find "routerId" with
  | none => Except.error (MS_THROW_ERROR "missing internal.routerId")
  | some j =>
    if !j.is_string then
      Except.error (MS_THROW_ERROR "missing internal.routerId")
    else
      match w.mapRouters.lookup j.get_string with
      | none => Except.error (MS_THROW_ERROR "Router not found")
      | some router => Except.ok router

/-- The handler `catch (const MediaSoupError& error) { MS_THROW_ERROR("%s
[method:%s]", error.what(), method) }` standing alone: every caught error,
type errors included, leaves as a plain error. -/
def rethrowError (error : MediaSoupError) (method : String) : MediaSoupError :=
  MS_THROW_ERROR (error.what ++ " [method:" ++ method ++ "]")

/-- The pair of handlers `catch (const MediaSoupTypeError&)` /
`catch (const MediaSoupError&)`: a type error leaves as a type error tagged
`typeTag`, any other as a plain error tagged `method`. -/
def rethrowTyped (error : MediaSoupError) (typeTag : String) (name : String) :
    MediaSoupError :=
  match error.kind with
  | ErrorKind.typeError =>
    MS_THROW_TYPE_ERROR (error.what ++ " [" ++ typeTag ++ ":" ++ name ++ "]")
  | ErrorKind.error =>
    MS_THROW_ERROR (error.what ++ " [method:" ++ name ++ "]")

/-- The result of a call that may have thrown. -/
def resultOf (thrown : Option MediaSoupError) : Except MediaSoupError Unit :=
  match thrown with
  | none => Except.ok ()
  | some e => Except.error e

/-- `Worker::HandleRequest(Channel::ChannelRequest* request)`. -/
def HandleRequest (env : Env) (w : Worker) (request : ChannelRequest) : Outcome Unit :=
  match request.methodId with
  | MethodId.WORKER_CLOSE =>
    if w.closed then
      { worker := w, trace := [], result := Except.ok () }
    else
      Close w
  | MethodId.WORKER_DUMP =>
    let data := FillJson env w []
    { worker := w, trace := [Effect.accept request.id (some (Json.object data))],
      result := Except.ok () }
  | MethodId.WORKER_GET_RESOURCE_USAGE =>
    match FillJsonResourceUsage env [] with
    | Except.error e => { worker := w, trace := [], result := Except.error e }
    | Except.ok data =>
      { worker := w, trace := [Effect.accept request.id (some (Json.object data))],
        result := Except.ok () }
  | MethodId.WORKER_UPDATE_SETTINGS =>
    { worker := w, trace := [Effect.settingsHandleRequest request],
      result := resultOf (env.settingsHandleRequest request) }
  | MethodId.WORKER_CREATE_WEBRTC_SERVER =>
    match SetNewWebRtcServerIdFromInternal w request.internal with
    | Except.error e =>
      { worker := w, trace := [], result := Except.error (rethrowTyped e "method" request.method) }
    | Except.ok webRtcServerId =>
      match env.newWebRtcServer webRtcServerId request.data with
      | some e =>
        { worker := w, trace := [],
          result := Except.error (rethrowTyped e "method" request.method) }
      | none =>
        let webRtcServer : WebRtcServer := { id := webRtcServerId }
        { worker := { w with
            mapWebRtcServers := w.mapWebRtcServers.insert webRtcServerId webRtcServer },
          trace := [Effect.newWebRtcServer webRtcServer, Effect.accept request.id none],
          result := Except.ok () }
  | MethodId.WEBRTC_SERVER_CLOSE =>
    match GetWebRtcServerFromInternal w request.internal with
    | Except.error e =>
      { worker := w, trace := [], result := Except.error (rethrowError e request.method) }
    | Except.ok webRtcServer =>
      -- Remove it from the map and delete it.
      { worker := { w with mapWebRtcServers := w.mapWebRtcServers.erase webRtcServer.id },
        trace := [Effect.deleteWebRtcServer webRtcServer, Effect.accept request.id none],
        result := Except.ok () }
  | MethodId.WEBRTC_SERVER_DUMP =>
    match GetWebRtcServerFromInternal w request.internal with
    | Except.error e =>
      { worker := w, trace := [], result := Except.error (rethrowError e request.method) }
    | Except.ok webRtcServer =>
      match env.webRtcServerHandleRequest webRtcServer request with
      | some e =>
        { worker := w, trace := [Effect.webRtcServerHandleRequest webRtcServer request],
          result := Except.error (rethrowError e request.method) }
      | none =>
        { worker := w, trace := [Effect.webRtcServerHandleRequest webRtcServer request],
          result := Except.ok () }
  | MethodId.WORKER_CREATE_ROUTER =>
    match SetNewRouterIdFromInternal w request.internal with
    | Except.error e =>
      { worker := w, trace := [], result := Except.error (rethrowError e request.method) }
    | Except.ok routerId =>
      let router : Router := { id := routerId }
      { worker := { w with mapRouters := w.mapRouters.insert routerId router },
        trace := [Effect.newRouter router, Effect.accept request.id none],
        result := Except.ok () }
  | MethodId.ROUTER_CLOSE =>
    match GetRouterFromInternal w request.internal with
    | Except.error e =>
      { worker := w, trace := [], result := Except.error (rethrowError e request.method) }
    | Except.ok router =>
      -- Remove it from the map and delete it.
      { worker := { w with mapRouters := w.mapRouters.erase router.id },
        trace := [Effect.deleteRouter router, Effect.accept request.id none],
        result := Except.ok () }
  -- Any other request must be delivered to the corresponding Router.
  | MethodId.OTHER _ =>
    match GetRouterFromInternal w request.internal with
    | Except.error e =>
      { worker := w, trace := [], result := Except.error (rethrowTyped e "method" request.method) }
    | Except.ok router =>
      match env.routerHandleRequest router request with
      | some e =>
        { worker := w, trace := [Effect.routerHandleRequest router request],
          result := Except.error (rethrowTyped e "method" request.method) }
      | none =>
        { worker := w, trace := [Effect.routerHandleRequest router request],
          result := Except.ok () }

/-- `Worker::OnChannelClosed(Channel::ChannelSocket*)`. -/
def OnChannelClosed (w : Worker) : Outcome Unit :=
  Close w

/-- `Worker::HandleNotification(PayloadChannel::Notification* notification)`. -/
def HandleNotification (env : Env) (w : Worker) (notification : Notification) :
    Outcome Unit :=
  match GetRouterFromInternal w notification.internal with
  | Except.error e =>
    { worker := w, trace := [], result := Except.error (rethrowTyped e "event" notification.event) }
  | Except.ok router =>
    match env.routerHandleNotification router notification with
    | some e =>
      { worker := w, trace := [Effect.routerHandleNotification router notification],
        result := Except.error (rethrowTyped e "event" notification.event) }
    | none =>
      { worker := w, trace := [Effect.routerHandleNotification router notification],
        result := Except.ok () }

/-- `Worker::HandleRequest(PayloadChannel::PayloadChannelRequest* request)`. -/
def HandlePayloadRequest (env : Env) (w : Worker) (request : PayloadChannelRequest) :
    Outcome Unit :=
  match GetRouterFromInternal w request.internal with
  | Except.error e =>
    { worker := w, trace := [], result := Except.error (rethrowTyped e "method" request.method) }
  | Except.ok router =>
    match env.routerHandlePayloadRequest router request with
    | some e =>
      { worker := w, trace := [Effect.routerHandlePayloadRequest router request],
        result := Except.error (rethrowTyped e "method" request.method) }
    | none =>
      { worker := w, trace := [Effect.routerHandlePayloadRequest router request],
        result := Except.ok () }

/-- `Worker::OnPayloadChannelClosed(PayloadChannel::PayloadChannelSocket*)`. -/
def OnPayloadChannelClosed (w : Worker) : Outcome Unit :=
  Close w

/-- `Worker::OnSignal(SignalsHandler*, int signum)`. -/
def OnSignal (w : Worker) (signum : Int) : Outcome Unit :=
  if w.closed then
    { worker := w, trace := [], result := Except.ok () }
  else if signum = SIGINT then
    if w.closed then { worker := w, trace := [], result := Except.ok () }
    else Close w
  else if signum = SIGTERM then
    if w.closed then { worker := w, trace := [], result := Except.ok () }
    else Close w
  else
    { worker := w, trace := [], result := Except.ok () }

/-- `Worker::OnRouterNeedWebRtcServer(RTC::Router*, std::string& webRtcServerId)`;
`nullptr` is `none`. -/
def OnRouterNeedWebRtcServer (w : Worker) (_router : Router) (webRtcServerId : String) :
    Outcome (Option WebRtcServer) :=
  match w.mapWebRtcServers.lookup webRtcServerId with
  | some webRtcServer =>
    { worker := w, trace := [], result := Except.ok (some webRtcServer) }
  | none =>
    { worker := w, trace := [], result := Except.ok none }

end Worker

/-! ## Runs of the event loop -/

/-- One event the loop hands to the Worker, together with what the code
outside `Worker.cpp` answers while the Worker handles it. -/
inductive Event where
  | request (env : Env) (request : ChannelRequest)
  | payloadRequest (env : Env) (request : PayloadChannelRequest)
  | notification (env : Env) (notification : Notification)
  | channelClosed
  | payloadChannelClosed
  | signal (signum : Int)

namespace Worker

/-- The Worker after handling one event (an error raised by the handler is
answered by the channel and leaves the Worker as the handler left it). -/
def step (w : Worker) : Event → Worker
  | Event.request env request => (HandleRequest env w request).worker
  | Event.payloadRequest env request => (HandlePayloadRequest env w request).worker
  | Event.notification env notification => (HandleNotification env w notification).worker
  | Event.channelClosed => (OnChannelClosed w).worker
  | Event.payloadChannelClosed => (OnPayloadChannelClosed w).worker
  | Event.signal signum => (OnSignal w signum).worker

/-- The Worker after handling the events in order, starting from `w`. -/
def run (w : Worker) (events : List Event) : Worker :=
  events.foldl step w

/-- Every entry of either map is stored under the id of the entity it holds. -/
def KeyedById (w : Worker) : Prop :=
  (∀ k r, w.mapRouters.lookup k = some r → r.id = k) ∧
  (∀ k s, w.mapWebRtcServers.lookup k = some s → s.id = k)

end Worker

/-! ## Concrete inputs used by the examples -/

/-- A `uv_rusage_t` with every counter zero. -/
def UvRusage.zero : UvRusage :=
  { ru_utime := { tv_sec := 0, tv_usec := 0 }, ru_stime := { tv_sec := 0, tv_usec := 0 },
    ru_maxrss := 0, ru_ixrss := 0, ru_idrss := 0, ru_isrss := 0, ru_minflt := 0,
    ru_majflt := 0, ru_nswap := 0, ru_inblock := 0, ru_oublock := 0, ru_msgsnd := 0,
    ru_msgrcv := 0, ru_nsignals := 0, ru_nvcsw := 0, ru_nivcsw := 0 }

/-- An environment in which no collaborator ever throws; the process id is 7. -/
def Env.calm : Env :=
  { pid := 7
    uv_getrusage := (0, UvRusage.zero)
    uv_strerror := fun _ => ""
    newWebRtcServer := fun _ _ => none
    settingsHandleRequest := fun _ => none
    webRtcServerHandleRequest := fun _ _ => none
    routerHandleRequest := fun _ _ => none
    routerHandlePayloadRequest := fun _ _ => none
    routerHandleNotification := fun _ _ => none }

/-- A control-channel request with the given method whose `internal` record
holds the single member `key: id`. -/
def ChannelRequest.addressed (methodId : MethodId) (method key id : String) : ChannelRequest :=
  { id := 1, method := method, methodId := methodId,
    internal := Json.object [(key, Json.string id)], data := Json.null }

/-- `worker.createRouter` for router id `id`. -/
def createRouterRequest (id : String) : ChannelRequest :=
  ChannelRequest.addressed MethodId.WORKER_CREATE_ROUTER "worker.createRouter" "routerId" id

/-- `router.close` for router id `id`. -/
def closeRouterRequest (id : String) : ChannelRequest :=
  ChannelRequest.addressed MethodId.ROUTER_CLOSE "router.close" "routerId" id

/-- `worker.createWebRtcServer` for WebRtcServer id `id`. -/
def createWebRtcServerRequest (id : String) : ChannelRequest :=
  ChannelRequest.addressed MethodId.WORKER_CREATE_WEBRTC_SERVER "worker.createWebRtcServer"
    "webRtcServerId" id

/-- `webRtcServer.close` for WebRtcServer id `id`. -/
def closeWebRtcServerRequest (id : String) : ChannelRequest :=
  ChannelRequest.addressed MethodId.WEBRTC_SERVER_CLOSE "webRtcServer.close" "webRtcServerId" id

/-- A Worker holding Router `r1` and WebRtcServer `s1`, reached from the
initial Worker by two creation requests. -/
def Worker.sample : Worker :=
  Worker.run Worker.init
    [Event.request Env.calm (createRouterRequest "r1"),
     Event.request Env.calm (createWebRtcServerRequest "s1")]


/-- `worker.close`. -/
def closeWorkerRequest : ChannelRequest :=
  { id := 1, method := "worker.close", methodId := MethodId.WORKER_CLOSE,
    internal := Json.object [], data := Json.null }

/-- `worker.dump`. -/
def dumpWorkerRequest : ChannelRequest :=
  { id := 1, method := "worker.dump", methodId := MethodId.WORKER_DUMP,
    internal := Json.object [], data := Json.null }

/-- `router.dump` addressed to Router `r1`: a method the Worker's switch does
not name. -/
def routerDumpRequest : ChannelRequest :=
  ChannelRequest.addressed (MethodId.OTHER 0) "router.dump" "routerId" "r1"

/-- A payload-channel request addressed to Router `r1`. -/
def transportSendRequest : PayloadChannelRequest :=
  { id := 2, method := "dataConsumer.send",
    internal := Json.object [("routerId", Json.string "r1")], data := Json.null }

/-- A payload-channel notification addressed to Router `r1`. -/
def producerSendNotification : Notification :=
  { event := "producer.send",
    internal := Json.object [("routerId", Json.string "r1")], data := Json.null }

/-! ## Lemmas on the lookups by `internal` -/

theorem Worker.SetNewRouterIdFromInternal_string (w : Worker) (internal : Json) (id : String)
    (h : internal.find "routerId" = some (Json.string id)) :
    Worker.SetNewRouterIdFromInternal w internal =
      if (w.mapRouters.lookup id).isSome then
        Except.error (MS_THROW_ERROR "a Router with same routerId already exists")
      else Except.ok id := by
  simp [Worker.SetNewRouterIdFromInternal, h, Json.is_string, Json.get_string]

/-- C1. WORKER_CREATE_ROUTER with a routerId that is already a key of the router
map fails with an error, allocates no Router, calls no accept, and leaves the
Worker (both maps, the Router stored under that id included) as it was. -/
theorem Worker.create_router_duplicate_id (env : Env) (w : Worker) (request : ChannelRequest)
    (routerId : String)
    (hm : request.methodId = MethodId.WORKER_CREATE_ROUTER)
    (hid : request.internal.find "routerId" = some (Json.string routerId))
    (hkey : routerId ∈ w.mapRouters) :
    (Worker.HandleRequest env w request).result =
        Except.error (MS_THROW_ERROR
          ("a Router with same routerId already exists [method:" ++ request.method ++ "]")) ∧
      (Worker.HandleRequest env w request).worker = w ∧
      (Worker.HandleRequest env w request).worker.mapRouters.lookup routerId
        = w.mapRouters.lookup routerId ∧
      (∀ e ∈ (Worker.HandleRequest env w request).trace, e.isNewRouter = false) ∧
      (Worker.HandleRequest env w request).accepts = 0 := by
  have hsome : (w.mapRouters.lookup routerId).isSome = true := AList.lookup_isSome.mpr hkey
  simp [Worker.HandleRequest, hm, Worker.SetNewRouterIdFromInternal_string w _ _ hid, hsome,
    Worker.rethrowError, MS_THROW_ERROR, Outcome.accepts]

theorem Worker.create_router_duplicate_id_witness :
    (Worker.HandleRequest Env.calm Worker.sample (createRouterRequest "r1")).worker
      = Worker.sample :=
  (Worker.create_router_duplicate_id Env.calm Worker.sample (createRouterRequest "r1") "r1"
    rfl rfl (by decide)).2.1

theorem Worker.SetNewWebRtcServerIdFromInternal_string (w : Worker) (internal : Json)
    (id : String) (h : internal.find "webRtcServerId" = some (Json.string id)) :
    Worker.SetNewWebRtcServerIdFromInternal w internal =
      if (w.mapWebRtcServers.lookup id).isSome then
        Except.error (MS_THROW_ERROR "a WebRtcServer with same webRtcServerId already exists")
      else Except.ok id := by
  simp [Worker.SetNewWebRtcServerIdFromInternal, h, Json.is_string, Json.get_string]

theorem Worker.SetNewWebRtcServerIdFromInternal_missing (w : Worker) (internal : Json)
    (h : ∀ id, internal.find "webRtcServerId" ≠ some (Json.string id)) :
    Worker.SetNewWebRtcServerIdFromInternal w internal =
      Except.error (MS_THROW_ERROR "missing internal.webRtcServerId") := by
  unfold Worker.SetNewWebRtcServerIdFromInternal
  cases hf : internal.find "webRtcServerId" with
  | none => rfl
  | some j =>
    cases j with
    | string s => exact absurd hf (h s)
    | _ => rfl

/-- The value found under `key` is a string, or there is no string there. -/
theorem Json.find_string_or_not (internal : Json) (key : String) :
    (∃ id, internal.find key = some (Json.string id)) ∨
      (∀ id, internal.find key ≠ some (Json.string id)) := by
  by_cases h : ∃ id, internal.find key = some (Json.string id)
  · exact Or.inl h
  · exact Or.inr (fun id hid => h ⟨id, hid⟩)

/-- C2. WORKER_CREATE_WEBRTC_SERVER fails exactly when internal.webRtcServerId is
missing or not a string, or is already a key of the WebRtcServer map, or the
WebRtcServer constructor throws; a failed request leaves the Worker as it was;
a successful one adds the one entry under that id (which was not a key), keeps
every other WebRtcServer entry and the router map, and is accepted once. -/
theorem Worker.create_webrtc_server_outcome (env : Env) (w : Worker)
    (request : ChannelRequest)
    (hm : request.methodId = MethodId.WORKER_CREATE_WEBRTC_SERVER) :
    ((Worker.HandleRequest env w request).threw = true ↔
      ((∀ id, request.internal.find "webRtcServerId" ≠ some (Json.string id)) ∨
        ∃ id, request.internal.find "webRtcServerId" = some (Json.string id) ∧
          (id ∈ w.mapWebRtcServers ∨ (env.newWebRtcServer id request.data).isSome = true))) ∧
    ((Worker.HandleRequest env w request).threw = true →
      (Worker.HandleRequest env w request).worker = w ∧
      (Worker.HandleRequest env w request).accepts = 0) ∧
    ((Worker.HandleRequest env w request).threw = false →
      ∃ id, request.internal.find "webRtcServerId" = some (Json.string id) ∧
        id ∉ w.mapWebRtcServers ∧
        (Worker.HandleRequest env w request).worker.mapWebRtcServers.lookup id
          = some { id := id } ∧
        (∀ k, k ≠ id →
          (Worker.HandleRequest env w request).worker.mapWebRtcServers.lookup k
            = w.mapWebRtcServers.lookup k) ∧
        ((Worker.HandleRequest env w request).worker.mapWebRtcServers.keys).Perm
          (id :: w.mapWebRtcServers.keys) ∧
        (Worker.HandleRequest env w request).worker.mapRouters = w.mapRouters ∧
        (Worker.HandleRequest env w request).worker.closed = w.closed ∧
        (Worker.HandleRequest env w request).accepts = 1) := by
  rcases Json.find_string_or_not request.internal "webRtcServerId" with ⟨id, hid⟩ | hno
  · by_cases hkey : id ∈ w.mapWebRtcServers
    · have hsome : (w.mapWebRtcServers.lookup id).isSome = true := AList.lookup_isSome.mpr hkey
      have hout : Worker.HandleRequest env w request =
          { worker := w, trace := [],
            result := Except.error (Worker.rethrowTyped
              (MS_THROW_ERROR "a WebRtcServer with same webRtcServerId already exists")
              "method" request.method) } := by
        simp [Worker.HandleRequest, hm, Worker.SetNewWebRtcServerIdFromInternal_string w _ _ hid,
          hsome]
      rw [hout]
      refine ⟨⟨fun _ => Or.inr ⟨id, hid, Or.inl hkey⟩, fun _ => rfl⟩, fun _ => ⟨rfl, rfl⟩, ?_⟩
      intro h
      simp [Outcome.threw] at h
    · have hnone : (w.mapWebRtcServers.lookup id).isSome = false := by
        simp [AList.lookup_eq_none.mpr hkey]
      cases hnew : env.newWebRtcServer id request.data with
      | some e =>
        have hout : Worker.HandleRequest env w request =
            { worker := w, trace := [],
              result := Except.error (Worker.rethrowTyped e "method" request.method) } := by
          simp [Worker.HandleRequest, hm,
            Worker.SetNewWebRtcServerIdFromInternal_string w _ _ hid, hnone, hnew]
        rw [hout]
        refine ⟨⟨fun _ => Or.inr ⟨id, hid, Or.inr (by simp [hnew])⟩, fun _ => rfl⟩,
          fun _ => ⟨rfl, rfl⟩, ?_⟩
        intro h
        simp [Outcome.threw] at h
      | none =>
        have hout : Worker.HandleRequest env w request =
            { worker := { w with
                mapWebRtcServers := w.mapWebRtcServers.insert id { id := id } },
              trace := [Effect.newWebRtcServer { id := id }, Effect.accept request.id none],
              result := Except.ok () } := by
          simp [Worker.HandleRequest, hm,
            Worker.SetNewWebRtcServerIdFromInternal_string w _ _ hid, hnone, hnew]
        rw [hout]
        refine ⟨⟨fun h => ?_, fun h => ?_⟩, fun h => ?_, fun _ => ?_⟩
        · simp [Outcome.threw] at h
        · exfalso
          rcases h with h | ⟨id2, hid2, h⟩
          · exact h id hid
          · rw [hid] at hid2
            have hEq : id = id2 := by simpa using hid2
            subst hEq
            rcases h with h | h
            · exact hkey h
            · simp [hnew] at h
        · simp [Outcome.threw] at h
        · refine ⟨id, hid, hkey, ?_, ?_, ?_, rfl, rfl, rfl⟩
          · exact AList.lookup_insert _
          · intro k hk
            exact AList.lookup_insert_ne hk
          · have hnk : id ∉ w.mapWebRtcServers.keys := fun hmem => hkey (AList.mem_keys.mpr hmem)
            simp only [AList.keys_insert, List.erase_of_not_mem hnk]
            exact List.Perm.refl _
  · have hout : Worker.HandleRequest env w request =
        { worker := w, trace := [],
          result := Except.error (Worker.rethrowTyped
            (MS_THROW_ERROR "missing internal.webRtcServerId") "method" request.method) } := by
      simp [Worker.HandleRequest, hm, Worker.SetNewWebRtcServerIdFromInternal_missing w _ hno]
    rw [hout]
    refine ⟨⟨fun _ => Or.inl hno, fun _ => rfl⟩, fun _ => ⟨rfl, rfl⟩, ?_⟩
    intro h
    simp [Outcome.threw] at h

theorem Worker.create_webrtc_server_outcome_witness :
    (Worker.HandleRequest Env.calm Worker.sample (createWebRtcServerRequest "s2")).threw = true ↔
      ((∀ id, (createWebRtcServerRequest "s2").internal.find "webRtcServerId"
          ≠ some (Json.string id)) ∨
        ∃ id, (createWebRtcServerRequest "s2").internal.find "webRtcServerId"
            = some (Json.string id) ∧
          (id ∈ Worker.sample.mapWebRtcServers ∨
            (Env.calm.newWebRtcServer id (createWebRtcServerRequest "s2").data).isSome = true)) :=
  (Worker.create_webrtc_server_outcome Env.calm Worker.sample (createWebRtcServerRequest "s2")
    rfl).1

theorem Worker.GetRouterFromInternal_string (w : Worker) (internal : Json) (id : String)
    (h : internal.find "routerId" = some (Json.string id)) :
    Worker.GetRouterFromInternal w internal =
      match w.mapRouters.lookup id with
      | none => Except.error (MS_THROW_ERROR "Router not found")
      | some router => Except.ok router := by
  simp [Worker.GetRouterFromInternal, h, Json.is_string, Json.get_string]

theorem Worker.GetRouterFromInternal_missing (w : Worker) (internal : Json)
    (h : ∀ id, internal.find "routerId" ≠ some (Json.string id)) :
    Worker.GetRouterFromInternal w internal =
      Except.error (MS_THROW_ERROR "missing internal.routerId") := by
  unfold Worker.GetRouterFromInternal
  cases hf : internal.find "routerId" with
  | none => rfl
  | some j =>
    cases j with
    | string s => exact absurd hf (h s)
    | _ => rfl

theorem Worker.GetWebRtcServerFromInternal_string (w : Worker) (internal : Json) (id : String)
    (h : internal.find "webRtcServerId" = some (Json.string id)) :
    Worker.GetWebRtcServerFromInternal w internal =
      match w.mapWebRtcServers.lookup id with
      | none => Except.error (MS_THROW_ERROR "WebRtcServer not found")
      | some webRtcServer => Except.ok webRtcServer := by
  simp [Worker.GetWebRtcServerFromInternal, h, Json.is_string, Json.get_string]

theorem Worker.GetWebRtcServerFromInternal_missing (w : Worker) (internal : Json)
    (h : ∀ id, internal.find "webRtcServerId" ≠ some (Json.string id)) :
    Worker.GetWebRtcServerFromInternal w internal =
      Except.error (MS_THROW_ERROR "missing internal.webRtcServerId") := by
  unfold Worker.GetWebRtcServerFromInternal
  cases hf : internal.find "webRtcServerId" with
  | none => rfl
  | some j =>
    cases j with
    | string s => exact absurd hf (h s)
    | _ => rfl

/-- A lookup by `internal.routerId` that succeeds returns a Router of the map,
and leaves no other way out than an error. -/
theorem Worker.GetRouterFromInternal_cases (w : Worker) (internal : Json) :
    (∃ e, Worker.GetRouterFromInternal w internal = Except.error e) ∨
      ∃ id router, internal.find "routerId" = some (Json.string id) ∧
        w.mapRouters.lookup id = some router ∧
        Worker.GetRouterFromInternal w internal = Except.ok router := by
  rcases Json.find_string_or_not internal "routerId" with ⟨id, hid⟩ | hno
  · rw [Worker.GetRouterFromInternal_string w _ _ hid]
    cases hl : w.mapRouters.lookup id with
    | none => exact Or.inl ⟨_, rfl⟩
    | some r => exact Or.inr ⟨id, r, hid, hl, rfl⟩
  · exact Or.inl ⟨_, Worker.GetRouterFromInternal_missing w _ hno⟩

theorem Worker.GetWebRtcServerFromInternal_cases (w : Worker) (internal : Json) :
    (∃ e, Worker.GetWebRtcServerFromInternal w internal = Except.error e) ∨
      ∃ id server, internal.find "webRtcServerId" = some (Json.string id) ∧
        w.mapWebRtcServers.lookup id = some server ∧
        Worker.GetWebRtcServerFromInternal w internal = Except.ok server := by
  rcases Json.find_string_or_not internal "webRtcServerId" with ⟨id, hid⟩ | hno
  · rw [Worker.GetWebRtcServerFromInternal_string w _ _ hid]
    cases hl : w.mapWebRtcServers.lookup id with
    | none => exact Or.inl ⟨_, rfl⟩
    | some r => exact Or.inr ⟨id, r, hid, hl, rfl⟩
  · exact Or.inl ⟨_, Worker.GetWebRtcServerFromInternal_missing w _ hno⟩

/-! ## Lemmas on `Close` -/

theorem Worker.Close_of_closed (w : Worker) (h : w.closed = true) :
    Worker.Close w = { worker := w, trace := [], result := Except.ok () } := by
  simp [Worker.Close, h]

theorem Worker.Close_of_open (w : Worker) (h : w.closed = false) :
    Worker.Close w =
      { worker := { closed := true, mapWebRtcServers := ∅, mapRouters := ∅ },
        trace := [Effect.deleteSignalsHandler]
          ++ w.mapRouters.entries.map (fun kv => Effect.deleteRouter kv.2)
          ++ w.mapWebRtcServers.entries.map (fun kv => Effect.deleteWebRtcServer kv.2)
          ++ [Effect.closeChecker, Effect.channelClose, Effect.payloadChannelClose],
        result := Except.ok () } := by
  simp [Worker.Close, h]

theorem Worker.Close_accepts (w : Worker) : (Worker.Close w).accepts = 0 := by
  cases h : w.closed with
  | true => simp [Worker.Close_of_closed w h, Outcome.accepts]
  | false =>
    simp [Worker.Close_of_open w h, Outcome.accepts, List.countP_eq_zero, Effect.isAccept]

theorem Worker.Close_returned (w : Worker) : (Worker.Close w).returned = true := by
  cases h : w.closed with
  | true => simp [Worker.Close_of_closed w h, Outcome.returned]
  | false => simp [Worker.Close_of_open w h, Outcome.returned]

/-- C3 (amended). Closing an entity that is not registered, as is the case once
it has been closed, is rejected: ROUTER_CLOSE for a router id that is not a key
of the router map raises "Router not found", WEBRTC_SERVER_CLOSE for an id that
is not a key of the WebRtcServer map raises "WebRtcServer not found"; neither
calls accept, and the Worker state is not mutated. -/
theorem Worker.close_of_closed_entity_rejected (env : Env) (w : Worker)
    (request : ChannelRequest) (id : String) :
    (request.methodId = MethodId.ROUTER_CLOSE →
      request.internal.find "routerId" = some (Json.string id) →
      id ∉ w.mapRouters →
        (Worker.HandleRequest env w request).result =
          Except.error (MS_THROW_ERROR ("Router not found [method:" ++ request.method ++ "]")) ∧
        (Worker.HandleRequest env w request).accepts = 0 ∧
        (Worker.HandleRequest env w request).trace = [] ∧
        (Worker.HandleRequest env w request).worker = w) ∧
    (request.methodId = MethodId.WEBRTC_SERVER_CLOSE →
      request.internal.find "webRtcServerId" = some (Json.string id) →
      id ∉ w.mapWebRtcServers →
        (Worker.HandleRequest env w request).result =
          Except.error
            (MS_THROW_ERROR ("WebRtcServer not found [method:" ++ request.method ++ "]")) ∧
        (Worker.HandleRequest env w request).accepts = 0 ∧
        (Worker.HandleRequest env w request).trace = [] ∧
        (Worker.HandleRequest env w request).worker = w) := by
  constructor
  · intro hm hid hkey
    have hl := AList.lookup_eq_none.mpr hkey
    simp [Worker.HandleRequest, hm, Worker.GetRouterFromInternal_string w _ _ hid, hl,
      Worker.rethrowError, MS_THROW_ERROR, Outcome.accepts]
  · intro hm hid hkey
    have hl := AList.lookup_eq_none.mpr hkey
    simp [Worker.HandleRequest, hm, Worker.GetWebRtcServerFromInternal_string w _ _ hid, hl,
      Worker.rethrowError, MS_THROW_ERROR, Outcome.accepts]

theorem Worker.close_of_closed_entity_rejected_witness :
    (Worker.HandleRequest Env.calm Worker.init (closeRouterRequest "r1")).worker = Worker.init ∧
    (Worker.HandleRequest Env.calm Worker.init (closeWebRtcServerRequest "s1")).worker
      = Worker.init :=
  ⟨((Worker.close_of_closed_entity_rejected Env.calm Worker.init (closeRouterRequest "r1")
      "r1").1 rfl rfl (by decide)).2.2.2,
   ((Worker.close_of_closed_entity_rejected Env.calm Worker.init (closeWebRtcServerRequest "s1")
      "s1").2 rfl rfl (by decide)).2.2.2⟩

/-- C3 as stated fails: Router `r1` of the sample Worker is closed by an
accepted ROUTER_CLOSE, and the same ROUTER_CLOSE issued again on the resulting
Worker does not return success but raises an error; likewise for WebRtcServer
`s1` and WEBRTC_SERVER_CLOSE. -/
theorem Worker.close_of_closed_entity_counterexample :
    (Worker.HandleRequest Env.calm Worker.sample (closeRouterRequest "r1")).returned = true ∧
    ¬ (Worker.HandleRequest Env.calm
        (Worker.HandleRequest Env.calm Worker.sample (closeRouterRequest "r1")).worker
        (closeRouterRequest "r1")).returned = true ∧
    (Worker.HandleRequest Env.calm Worker.sample (closeWebRtcServerRequest "s1")).returned
      = true ∧
    ¬ (Worker.HandleRequest Env.calm
        (Worker.HandleRequest Env.calm Worker.sample (closeWebRtcServerRequest "s1")).worker
        (closeWebRtcServerRequest "s1")).returned = true := by
  decide

/-- C4 (amended). WORKER_DUMP, WORKER_CREATE_WEBRTC_SERVER, WEBRTC_SERVER_CLOSE,
WORKER_CREATE_ROUTER and ROUTER_CLOSE get exactly one response: the handler
either calls accept exactly once and raises no error, or raises an error and
never calls accept.  WORKER_CLOSE gets none: the handler returns without
calling accept and without raising an error; on a Worker that is not closed it
does exactly what `Close` does (the signals handler, every Router and every
WebRtcServer are deleted, the checker, the Channel and the PayloadChannel are
closed, the closed flag is set and both maps are emptied), and on a closed
Worker it returns at once, making no call and changing nothing. -/
theorem Worker.one_response (env : Env) (w : Worker) (request : ChannelRequest) :
    (request.methodId = MethodId.WORKER_DUMP ∨
      request.methodId = MethodId.WORKER_CREATE_WEBRTC_SERVER ∨
      request.methodId = MethodId.WEBRTC_SERVER_CLOSE ∨
      request.methodId = MethodId.WORKER_CREATE_ROUTER ∨
      request.methodId = MethodId.ROUTER_CLOSE →
        ((Worker.HandleRequest env w request).accepts = 1 ∧
          (Worker.HandleRequest env w request).threw = false) ∨
        ((Worker.HandleRequest env w request).accepts = 0 ∧
          (Worker.HandleRequest env w request).threw = true)) ∧
    (request.methodId = MethodId.WORKER_CLOSE →
      (Worker.HandleRequest env w request).accepts = 0 ∧
      (Worker.HandleRequest env w request).threw = false ∧
      (w.closed = false →
        Worker.HandleRequest env w request = Worker.Close w ∧
        Worker.HandleRequest env w request =
          { worker := { closed := true, mapWebRtcServers := ∅, mapRouters := ∅ },
            trace := [Effect.deleteSignalsHandler]
              ++ w.mapRouters.entries.map (fun kv => Effect.deleteRouter kv.2)
              ++ w.mapWebRtcServers.entries.map (fun kv => Effect.deleteWebRtcServer kv.2)
              ++ [Effect.closeChecker, Effect.channelClose, Effect.payloadChannelClose],
            result := Except.ok () }) ∧
      (w.closed = true →
        Worker.HandleRequest env w request
          = { worker := w, trace := [], result := Except.ok () })) := by
  constructor
  · intro hm
    rcases hm with hm | hm | hm | hm | hm
    · simp [Worker.HandleRequest, hm, Outcome.accepts, Outcome.threw, Effect.isAccept]
    · unfold Worker.HandleRequest
      simp only [hm]
      split
      · simp [Outcome.accepts, Outcome.threw]
      · split <;> simp [Outcome.accepts, Outcome.threw, Effect.isAccept]
    · unfold Worker.HandleRequest
      simp only [hm]
      split <;> simp [Outcome.accepts, Outcome.threw, Effect.isAccept]
    · unfold Worker.HandleRequest
      simp only [hm]
      split <;> simp [Outcome.accepts, Outcome.threw, Effect.isAccept]
    · unfold Worker.HandleRequest
      simp only [hm]
      split <;> simp [Outcome.accepts, Outcome.threw, Effect.isAccept]
  · intro hm
    have hc := Worker.Close_accepts w
    have hr := Worker.Close_returned w
    unfold Worker.HandleRequest
    simp only [hm]
    split
    · rename_i hclosed
      refine ⟨by simp [Outcome.accepts], by simp [Outcome.threw], ?_, fun _ => rfl⟩
      intro hopen
      rw [hopen] at hclosed
      cases hclosed
    · rename_i hopen
      have hopen2 : w.closed = false := by simpa using hopen
      refine ⟨hc, ?_, fun _ => ⟨rfl, Worker.Close_of_open w hopen2⟩, ?_⟩
      · simp only [Outcome.returned] at hr
        simp only [Outcome.threw]
        split <;> simp_all
      · intro hclosed
        exact absurd hclosed hopen

theorem Worker.one_response_witness :
    (((Worker.HandleRequest Env.calm Worker.sample (closeRouterRequest "r1")).accepts = 1 ∧
        (Worker.HandleRequest Env.calm Worker.sample (closeRouterRequest "r1")).threw = false) ∨
      ((Worker.HandleRequest Env.calm Worker.sample (closeRouterRequest "r1")).accepts = 0 ∧
        (Worker.HandleRequest Env.calm Worker.sample (closeRouterRequest "r1")).threw = true)) ∧
    Worker.HandleRequest Env.calm Worker.sample closeWorkerRequest
      = Worker.Close Worker.sample ∧
    Worker.HandleRequest Env.calm (Worker.Close Worker.sample).worker closeWorkerRequest
      = { worker := (Worker.Close Worker.sample).worker, trace := [], result := Except.ok () } :=
  ⟨(Worker.one_response Env.calm Worker.sample (closeRouterRequest "r1")).1
      (Or.inr (Or.inr (Or.inr (Or.inr rfl)))),
   (((Worker.one_response Env.calm Worker.sample closeWorkerRequest).2 rfl).2.2.1 rfl).1,
   ((Worker.one_response Env.calm (Worker.Close Worker.sample).worker closeWorkerRequest).2
      rfl).2.2.2 rfl⟩

/-- C4 as stated fails for WORKER_CLOSE: on the sample Worker the handler raises
no error and yet never calls accept, so neither alternative of the claim
holds. -/
theorem Worker.one_response_counterexample :
    ¬ (((Worker.HandleRequest Env.calm Worker.sample
          closeWorkerRequest).accepts = 1 ∧
        (Worker.HandleRequest Env.calm Worker.sample
          closeWorkerRequest).threw = false) ∨
      ((Worker.HandleRequest Env.calm Worker.sample
          closeWorkerRequest).threw = true ∧
        (Worker.HandleRequest Env.calm Worker.sample
          closeWorkerRequest).accepts = 0)) := by
  decide

/-! ## The maps are keyed by entity id in every reachable Worker -/

theorem Worker.KeyedById_init : Worker.KeyedById Worker.init := by
  constructor <;> intro k r h <;> simp [Worker.init] at h

theorem Worker.lookup_erase_some {β : Type} (m : AList (fun _ : String => β)) (a k : String)
    (v : β) (h : (m.erase a).lookup k = some v) : m.lookup k = some v := by
  by_cases hk : k = a
  · subst hk
    simp [AList.lookup_erase] at h
  · rwa [AList.lookup_erase_ne hk] at h

theorem Worker.KeyedById_Close (w : Worker) (h : Worker.KeyedById w) :
    Worker.KeyedById (Worker.Close w).worker := by
  cases hc : w.closed with
  | true => simpa [Worker.Close_of_closed w hc] using h
  | false =>
    rw [Worker.Close_of_open w hc]
    constructor <;> intro k r hl <;> simp at hl

theorem Worker.KeyedById_HandleRequest (env : Env) (w : Worker) (request : ChannelRequest)
    (h : Worker.KeyedById w) : Worker.KeyedById (Worker.HandleRequest env w request).worker := by
  unfold Worker.HandleRequest
  split
  · split
    · exact h
    · exact Worker.KeyedById_Close w h
  · exact h
  · split <;> exact h
  · exact h
  · split
    · exact h
    · rename_i webRtcServerId _
      split
      · exact h
      · refine ⟨h.1, ?_⟩
        intro k s hl
        by_cases hk : k = webRtcServerId
        · subst hk
          simp [AList.lookup_insert] at hl
          rw [← hl]
        · simp only [AList.lookup_insert_ne hk] at hl
          exact h.2 k s hl
  · split
    · exact h
    · refine ⟨h.1, ?_⟩
      intro k s hl
      exact h.2 k s (Worker.lookup_erase_some _ _ _ _ hl)
  · split
    · exact h
    · split <;> exact h
  · split
    · exact h
    · rename_i routerId _
      refine ⟨?_, h.2⟩
      intro k r hl
      by_cases hk : k = routerId
      · subst hk
        simp [AList.lookup_insert] at hl
        rw [← hl]
      · simp only [AList.lookup_insert_ne hk] at hl
        exact h.1 k r hl
  · split
    · exact h
    · refine ⟨?_, h.2⟩
      intro k r hl
      exact h.1 k r (Worker.lookup_erase_some _ _ _ _ hl)
  · split
    · exact h
    · split <;> exact h

theorem Worker.HandlePayloadRequest_worker (env : Env) (w : Worker)
    (request : PayloadChannelRequest) : (Worker.HandlePayloadRequest env w request).worker = w := by
  unfold Worker.HandlePayloadRequest
  split
  · rfl
  · split <;> rfl

theorem Worker.HandleNotification_worker (env : Env) (w : Worker)
    (notification : Notification) :
    (Worker.HandleNotification env w notification).worker = w := by
  unfold Worker.HandleNotification
  split
  · rfl
  · split <;> rfl

theorem Worker.OnSignal_of_closed (w : Worker) (signum : Int) (h : w.closed = true) :
    Worker.OnSignal w signum = { worker := w, trace := [], result := Except.ok () } := by
  simp [Worker.OnSignal, h]

theorem Worker.OnSignal_shutdown (w : Worker) (signum : Int) (h : w.closed = false)
    (hs : signum = SIGINT ∨ signum = SIGTERM) : Worker.OnSignal w signum = Worker.Close w := by
  rcases hs with hs | hs <;> simp [Worker.OnSignal, h, hs, SIGINT, SIGTERM]

theorem Worker.OnSignal_other (w : Worker) (signum : Int) (h1 : signum ≠ SIGINT)
    (h2 : signum ≠ SIGTERM) :
    Worker.OnSignal w signum = { worker := w, trace := [], result := Except.ok () } := by
  simp [Worker.OnSignal, h1, h2]

theorem Worker.KeyedById_OnSignal (w : Worker) (signum : Int) (h : Worker.KeyedById w) :
    Worker.KeyedById (Worker.OnSignal w signum).worker := by
  cases hc : w.closed with
  | true => simpa [Worker.OnSignal_of_closed w signum hc] using h
  | false =>
    by_cases hs : signum = SIGINT ∨ signum = SIGTERM
    · rw [Worker.OnSignal_shutdown w signum hc hs]
      exact Worker.KeyedById_Close w h
    · rw [Worker.OnSignal_other w signum (fun e => hs (Or.inl e)) (fun e => hs (Or.inr e))]
      exact h

theorem Worker.KeyedById_step (w : Worker) (event : Event) (h : Worker.KeyedById w) :
    Worker.KeyedById (Worker.step w event) := by
  cases event with
  | request env request => exact Worker.KeyedById_HandleRequest env w request h
  | payloadRequest env request =>
    simpa [Worker.step, Worker.HandlePayloadRequest_worker] using h
  | notification env notification =>
    simpa [Worker.step, Worker.HandleNotification_worker] using h
  | channelClosed => exact Worker.KeyedById_Close w h
  | payloadChannelClosed => exact Worker.KeyedById_Close w h
  | signal signum => exact Worker.KeyedById_OnSignal w signum h

theorem Worker.KeyedById_run (w : Worker) (events : List Event) (h : Worker.KeyedById w) :
    Worker.KeyedById (Worker.run w events) := by
  induction events generalizing w with
  | nil => exact h
  | cons event rest ih => exact ih (Worker.step w event) (Worker.KeyedById_step w event h)

theorem Worker.KeyedById_reachable (events : List Event) :
    Worker.KeyedById (Worker.run Worker.init events) :=
  Worker.KeyedById_run Worker.init events Worker.KeyedById_init

/-! ## Orderly teardown -/

/-- In a map keyed by entity id, no entity is stored twice. -/
theorem Worker.values_nodup {β : Type} (ident : β → String) (m : AList (fun _ : String => β))
    (h : ∀ k v, m.lookup k = some v → ident v = k) :
    (m.entries.map (fun kv => kv.2)).Nodup := by
  have hkeys : (m.entries.map (fun kv => kv.2)).map ident = m.keys := by
    rw [List.map_map]
    apply List.map_congr_left
    intro kv hkv
    have hl : m.lookup kv.1 = some kv.2 := AList.mem_lookup_iff.mpr hkv
    exact h kv.1 kv.2 hl
  have hnd : ((m.entries.map (fun kv => kv.2)).map ident).Nodup := by
    rw [hkeys]
    exact m.keys_nodup
  exact List.Nodup.of_map ident hnd

theorem Worker.countP_deleteRouter (r : Router)
    (l : List (Sigma (fun _ : String => Router))) :
    (l.map (fun kv => Effect.deleteRouter kv.2)).countP (Effect.isDeleteOfRouter r)
      = (l.map (fun kv => kv.2)).count r := by
  induction l with
  | nil => rfl
  | cons kv rest ih =>
    by_cases hr : kv.2 = r
    · simp [Effect.isDeleteOfRouter, hr, List.countP_cons] at ih ⊢
      exact ih
    · simp [Effect.isDeleteOfRouter, hr, List.countP_cons, List.count_cons] at ih ⊢
      exact ih

theorem Worker.countP_deleteWebRtcServer (s : WebRtcServer)
    (l : List (Sigma (fun _ : String => WebRtcServer))) :
    (l.map (fun kv => Effect.deleteWebRtcServer kv.2)).countP (Effect.isDeleteOfWebRtcServer s)
      = (l.map (fun kv => kv.2)).count s := by
  induction l with
  | nil => rfl
  | cons kv rest ih =>
    by_cases hr : kv.2 = s
    · simp [Effect.isDeleteOfWebRtcServer, hr, List.countP_cons] at ih ⊢
      exact ih
    · simp [Effect.isDeleteOfWebRtcServer, hr, List.countP_cons, List.count_cons] at ih ⊢
      exact ih

/-- C5. `Close` on a reachable Worker that is not closed: the trace is the
deletion of the signals handler, then one deletion per router entry, then one
deletion per WebRtcServer entry, then the closing of the checker, the Channel
and the PayloadChannel.  Hence no WebRtcServer is destroyed before a Router, no
channel is closed before a WebRtcServer is destroyed, every registered Router
and WebRtcServer is destroyed exactly once, both channels are closed, and
afterwards the closed flag is set and both maps are empty. -/
theorem Worker.Close_teardown (events : List Event)
    (hopen : (Worker.run Worker.init events).closed = false) :
    (Worker.Close (Worker.run Worker.init events)).trace =
        [Effect.deleteSignalsHandler]
          ++ (Worker.run Worker.init events).mapRouters.entries.map
              (fun kv => Effect.deleteRouter kv.2)
          ++ (Worker.run Worker.init events).mapWebRtcServers.entries.map
              (fun kv => Effect.deleteWebRtcServer kv.2)
          ++ [Effect.closeChecker, Effect.channelClose, Effect.payloadChannelClose] ∧
      (Worker.Close (Worker.run Worker.init events)).trace.Pairwise
        (fun a b => ¬ (a.isDeleteWebRtcServer = true ∧ b.isDeleteRouter = true)) ∧
      (Worker.Close (Worker.run Worker.init events)).trace.Pairwise
        (fun a b => ¬ (a.isChannelClose = true ∧ b.isDeleteWebRtcServer = true)) ∧
      (∀ k r, (Worker.run Worker.init events).mapRouters.lookup k = some r →
        (Worker.Close (Worker.run Worker.init events)).trace.countP
          (Effect.isDeleteOfRouter r) = 1) ∧
      (∀ k s, (Worker.run Worker.init events).mapWebRtcServers.lookup k = some s →
        (Worker.Close (Worker.run Worker.init events)).trace.countP
          (Effect.isDeleteOfWebRtcServer s) = 1) ∧
      (Worker.Close (Worker.run Worker.init events)).trace.countP Effect.isChannelClose = 2 ∧
      (Worker.Close (Worker.run Worker.init events)).returned = true ∧
      (Worker.Close (Worker.run Worker.init events)).worker.closed = true ∧
      (Worker.Close (Worker.run Worker.init events)).worker.mapRouters = ∅ ∧
      (Worker.Close (Worker.run Worker.init events)).worker.mapWebRtcServers = ∅ := by
  have hinv := Worker.KeyedById_reachable events
  generalize Worker.run Worker.init events = w at hopen hinv
  rw [Worker.Close_of_open w hopen]
  refine ⟨rfl, ?_, ?_, ?_, ?_, ?_, rfl, rfl, rfl, rfl⟩
  · simp only [List.pairwise_append, List.pairwise_map]
    refine ⟨⟨⟨by simp, List.pairwise_of_forall (by simp [Effect.isDeleteWebRtcServer]), ?_⟩,
      List.pairwise_of_forall (by simp [Effect.isDeleteRouter]), ?_⟩, by simp [Effect.isDeleteRouter],
      ?_⟩
    · intro a ha b hb
      simp at ha
      subst ha
      simp [Effect.isDeleteWebRtcServer]
    · intro a ha b hb
      simp at hb
      obtain ⟨k, s, -, rfl⟩ := hb
      simp [Effect.isDeleteRouter]
    · intro a ha b hb
      simp at hb
      rcases hb with rfl | rfl | rfl <;> simp [Effect.isDeleteRouter]
  · simp only [List.pairwise_append, List.pairwise_map]
    refine ⟨⟨⟨by simp, List.pairwise_of_forall (by simp [Effect.isChannelClose]), ?_⟩,
      List.pairwise_of_forall (by simp [Effect.isChannelClose]), ?_⟩,
      by simp [Effect.isDeleteWebRtcServer], ?_⟩
    · intro a ha b hb
      simp at ha
      subst ha
      simp [Effect.isChannelClose]
    · intro a ha b hb
      simp at ha
      rcases ha with rfl | ⟨k, r, -, rfl⟩ <;> simp [Effect.isChannelClose]
    · intro a ha b hb
      simp at hb
      rcases hb with rfl | rfl | rfl <;> simp [Effect.isDeleteWebRtcServer]
  · intro k r hl
    have hmem : r ∈ w.mapRouters.entries.map (fun kv => kv.2) :=
      List.mem_map.mpr ⟨⟨k, r⟩, AList.mem_lookup_iff.mp hl, rfl⟩
    have hnd := Worker.values_nodup Router.id w.mapRouters hinv.1
    have hcount := List.count_eq_one_of_mem hnd hmem
    simp only [List.countP_append, Worker.countP_deleteRouter, hcount]
    simp [List.countP_eq_zero, Effect.isDeleteOfRouter, List.countP_cons]
  · intro k s hl
    have hmem : s ∈ w.mapWebRtcServers.entries.map (fun kv => kv.2) :=
      List.mem_map.mpr ⟨⟨k, s⟩, AList.mem_lookup_iff.mp hl, rfl⟩
    have hnd := Worker.values_nodup WebRtcServer.id w.mapWebRtcServers hinv.2
    have hcount := List.count_eq_one_of_mem hnd hmem
    simp only [List.countP_append, Worker.countP_deleteWebRtcServer, hcount]
    simp [List.countP_eq_zero, Effect.isDeleteOfWebRtcServer, List.countP_cons]
  · have h1 : (w.mapRouters.entries.map (fun kv => Effect.deleteRouter kv.2)).countP
        Effect.isChannelClose = 0 :=
      List.countP_eq_zero.mpr (by
        intro a ha
        simp only [List.mem_map] at ha
        obtain ⟨kv, -, rfl⟩ := ha
        simp [Effect.isChannelClose])
    have h2 : (w.mapWebRtcServers.entries.map (fun kv => Effect.deleteWebRtcServer kv.2)).countP
        Effect.isChannelClose = 0 :=
      List.countP_eq_zero.mpr (by
        intro a ha
        simp only [List.mem_map] at ha
        obtain ⟨kv, -, rfl⟩ := ha
        simp [Effect.isChannelClose])
    simp only [List.countP_append, h1, h2]
    simp [List.countP_cons, Effect.isChannelClose]

theorem Worker.Close_teardown_witness :
    (Worker.Close Worker.sample).trace =
      [Effect.deleteSignalsHandler, Effect.deleteRouter { id := "r1" },
        Effect.deleteWebRtcServer { id := "s1" }, Effect.closeChecker, Effect.channelClose,
        Effect.payloadChannelClose] :=
  (Worker.Close_teardown
    [Event.request Env.calm (createRouterRequest "r1"),
     Event.request Env.calm (createWebRtcServerRequest "s1")] rfl).1

/-! ## The dump -/

theorem Worker.foldl_emplace_webRtcServerIds {β : Type} (p : Json)
    (l : List (Sigma (fun _ : String => β))) (items : List Json) :
    l.foldl (fun (j : JsonObject) kv => j.emplace_back "webRtcServerIds" (Json.string kv.1))
        [("pid", p), ("webRtcServerIds", Json.array items)]
      = [("pid", p),
          ("webRtcServerIds", Json.array (items ++ l.map (fun kv => Json.string kv.1)))] := by
  induction l generalizing items with
  | nil => simp
  | cons kv rest ih =>
    simp only [List.foldl_cons, List.map_cons]
    have hstep : JsonObject.emplace_back [("pid", p), ("webRtcServerIds", Json.array items)]
        "webRtcServerIds" (Json.string kv.1)
        = [("pid", p), ("webRtcServerIds", Json.array (items ++ [Json.string kv.1]))] := by
      simp [JsonObject.emplace_back]
    rw [hstep, ih]
    simp

theorem Worker.foldl_emplace_routerIds {β : Type} (p q : Json)
    (l : List (Sigma (fun _ : String => β))) (items : List Json) :
    l.foldl (fun (j : JsonObject) kv => j.emplace_back "routerIds" (Json.string kv.1))
        [("pid", p), ("webRtcServerIds", q), ("routerIds", Json.array items)]
      = [("pid", p), ("webRtcServerIds", q),
          ("routerIds", Json.array (items ++ l.map (fun kv => Json.string kv.1)))] := by
  induction l generalizing items with
  | nil => simp
  | cons kv rest ih =>
    simp only [List.foldl_cons, List.map_cons]
    have hstep : JsonObject.emplace_back
        [("pid", p), ("webRtcServerIds", q), ("routerIds", Json.array items)]
        "routerIds" (Json.string kv.1)
        = [("pid", p), ("webRtcServerIds", q),
            ("routerIds", Json.array (items ++ [Json.string kv.1]))] := by
      simp [JsonObject.emplace_back]
    rw [hstep, ih]
    simp

theorem Worker.FillJson_empty (env : Env) (w : Worker) :
    Worker.FillJson env w [] =
      [("pid", Json.number env.pid),
       ("webRtcServerIds", Json.array (w.mapWebRtcServers.keys.map Json.string)),
       ("routerIds", Json.array (w.mapRouters.keys.map Json.string))] := by
  have hset1 : JsonObject.set ([] : JsonObject) "pid" (Json.number env.pid)
      = [("pid", Json.number env.pid)] := rfl
  have hset2 : JsonObject.set [("pid", Json.number env.pid)] "webRtcServerIds" (Json.array [])
      = [("pid", Json.number env.pid), ("webRtcServerIds", Json.array [])] := by
    simp [JsonObject.set]
  have hset3 : ∀ q, JsonObject.set [("pid", Json.number env.pid), ("webRtcServerIds", q)]
      "routerIds" (Json.array [])
      = [("pid", Json.number env.pid), ("webRtcServerIds", q), ("routerIds", Json.array [])] := by
    intro q
    simp [JsonObject.set]
  unfold Worker.FillJson
  simp only [hset1, hset2, Worker.foldl_emplace_webRtcServerIds, hset3,
    Worker.foldl_emplace_routerIds, List.nil_append, AList.keys, List.keys, List.map_map]
  rfl

/-- C6. The WORKER_DUMP request is accepted with the object that `FillJson`
builds: the pid, a webRtcServerIds array listing the keys of the WebRtcServer
map, and a routerIds array listing the keys of the router map; each key of a
map occurs exactly once in its array and nothing else occurs in it.  The Worker
state is unchanged and no error is raised. -/
theorem Worker.dump_snapshot (env : Env) (w : Worker) (request : ChannelRequest)
    (hm : request.methodId = MethodId.WORKER_DUMP) :
    Worker.FillJson env w [] =
        [("pid", Json.number env.pid),
         ("webRtcServerIds", Json.array (w.mapWebRtcServers.keys.map Json.string)),
         ("routerIds", Json.array (w.mapRouters.keys.map Json.string))] ∧
      (∀ k, w.mapRouters.keys.count k = if k ∈ w.mapRouters then 1 else 0) ∧
      (∀ k, w.mapWebRtcServers.keys.count k = if k ∈ w.mapWebRtcServers then 1 else 0) ∧
      (Worker.HandleRequest env w request).trace =
        [Effect.accept request.id (some (Json.object (Worker.FillJson env w [])))] ∧
      (Worker.HandleRequest env w request).result = Except.ok () ∧
      (Worker.HandleRequest env w request).worker = w := by
  refine ⟨Worker.FillJson_empty env w, ?_, ?_, ?_, ?_, ?_⟩
  · intro k
    by_cases hk : k ∈ w.mapRouters
    · simp only [hk, if_true]
      exact List.count_eq_one_of_mem w.mapRouters.keys_nodup (AList.mem_keys.mp hk)
    · simp only [hk, if_false]
      exact List.count_eq_zero_of_not_mem (fun h => hk (AList.mem_keys.mpr h))
  · intro k
    by_cases hk : k ∈ w.mapWebRtcServers
    · simp only [hk, if_true]
      exact List.count_eq_one_of_mem w.mapWebRtcServers.keys_nodup (AList.mem_keys.mp hk)
    · simp only [hk, if_false]
      exact List.count_eq_zero_of_not_mem (fun h => hk (AList.mem_keys.mpr h))
  · simp [Worker.HandleRequest, hm]
  · simp [Worker.HandleRequest, hm]
  · simp [Worker.HandleRequest, hm]

theorem Worker.dump_snapshot_witness :
    (Worker.HandleRequest Env.calm Worker.sample dumpWorkerRequest).trace =
      [Effect.accept dumpWorkerRequest.id
        (some (Json.object (Worker.FillJson Env.calm Worker.sample [])))] :=
  (Worker.dump_snapshot Env.calm Worker.sample dumpWorkerRequest rfl).2.2.2.1

/-! ## Dispatch to Routers -/

/-- C7. A message the Worker does not handle itself (a control-channel request
whose method is none of those named in the Worker's switch, a payload-channel
request, a payload-channel notification) is handed to the Router stored under
internal.routerId and to no other when that is a string and a key of the router
map; otherwise no Router receives it and the handler raises an error.  In both
cases the Worker state, hence both maps, is unchanged. -/
theorem Worker.dispatch_by_router_id (env : Env) (w : Worker) (code : Nat)
    (request : ChannelRequest) (payloadRequest : PayloadChannelRequest)
    (notification : Notification) (hm : request.methodId = MethodId.OTHER code) :
    ((Worker.HandleRequest env w request).worker = w ∧
      (∀ id r, request.internal.find "routerId" = some (Json.string id) →
        w.mapRouters.lookup id = some r →
          (Worker.HandleRequest env w request).trace = [Effect.routerHandleRequest r request] ∧
          (Worker.HandleRequest env w request).deliveries = [r]) ∧
      ((¬ ∃ id r, request.internal.find "routerId" = some (Json.string id) ∧
          w.mapRouters.lookup id = some r) →
        (Worker.HandleRequest env w request).deliveries = [] ∧
        (Worker.HandleRequest env w request).threw = true)) ∧
    ((Worker.HandlePayloadRequest env w payloadRequest).worker = w ∧
      (∀ id r, payloadRequest.internal.find "routerId" = some (Json.string id) →
        w.mapRouters.lookup id = some r →
          (Worker.HandlePayloadRequest env w payloadRequest).trace
            = [Effect.routerHandlePayloadRequest r payloadRequest] ∧
          (Worker.HandlePayloadRequest env w payloadRequest).deliveries = [r]) ∧
      ((¬ ∃ id r, payloadRequest.internal.find "routerId" = some (Json.string id) ∧
          w.mapRouters.lookup id = some r) →
        (Worker.HandlePayloadRequest env w payloadRequest).deliveries = [] ∧
        (Worker.HandlePayloadRequest env w payloadRequest).threw = true)) ∧
    ((Worker.HandleNotification env w notification).worker = w ∧
      (∀ id r, notification.internal.find "routerId" = some (Json.string id) →
        w.mapRouters.lookup id = some r →
          (Worker.HandleNotification env w notification).trace
            = [Effect.routerHandleNotification r notification] ∧
          (Worker.HandleNotification env w notification).deliveries = [r]) ∧
      ((¬ ∃ id r, notification.internal.find "routerId" = some (Json.string id) ∧
          w.mapRouters.lookup id = some r) →
        (Worker.HandleNotification env w notification).deliveries = [] ∧
        (Worker.HandleNotification env w notification).threw = true)) := by
  refine ⟨⟨?_, ?_, ?_⟩, ⟨Worker.HandlePayloadRequest_worker env w payloadRequest, ?_, ?_⟩,
    ⟨Worker.HandleNotification_worker env w notification, ?_, ?_⟩⟩
  · unfold Worker.HandleRequest
    simp only [hm]
    split
    · rfl
    · split <;> rfl
  · intro id r hid hl
    unfold Worker.HandleRequest
    simp only [hm, Worker.GetRouterFromInternal_string w _ _ hid, hl]
    cases env.routerHandleRequest r request <;>
      simp [Outcome.deliveries, Effect.deliveredTo]
  · intro hno
    rcases Worker.GetRouterFromInternal_cases w request.internal with ⟨e, he⟩ | ⟨id, r, hid, hl, -⟩
    · unfold Worker.HandleRequest
      simp [hm, he, Outcome.deliveries, Outcome.threw]
    · exact absurd ⟨id, r, hid, hl⟩ hno
  · intro id r hid hl
    unfold Worker.HandlePayloadRequest
    simp only [Worker.GetRouterFromInternal_string w _ _ hid, hl]
    cases env.routerHandlePayloadRequest r payloadRequest <;>
      simp [Outcome.deliveries, Effect.deliveredTo]
  · intro hno
    rcases Worker.GetRouterFromInternal_cases w payloadRequest.internal with
      ⟨e, he⟩ | ⟨id, r, hid, hl, -⟩
    · unfold Worker.HandlePayloadRequest
      simp [he, Outcome.deliveries, Outcome.threw]
    · exact absurd ⟨id, r, hid, hl⟩ hno
  · intro id r hid hl
    unfold Worker.HandleNotification
    simp only [Worker.GetRouterFromInternal_string w _ _ hid, hl]
    cases env.routerHandleNotification r notification <;>
      simp [Outcome.deliveries, Effect.deliveredTo]
  · intro hno
    rcases Worker.GetRouterFromInternal_cases w notification.internal with
      ⟨e, he⟩ | ⟨id, r, hid, hl, -⟩
    · unfold Worker.HandleNotification
      simp [he, Outcome.deliveries, Outcome.threw]
    · exact absurd ⟨id, r, hid, hl⟩ hno

theorem Worker.dispatch_by_router_id_witness :
    (Worker.HandleRequest Env.calm Worker.sample routerDumpRequest).deliveries
      = [{ id := "r1" }] :=
  ((Worker.dispatch_by_router_id Env.calm Worker.sample 0 routerDumpRequest
    transportSendRequest producerSendNotification rfl).1.2.1 "r1" { id := "r1" } rfl
      (by decide)).2

/-! ## Closing one entity -/

/-- C8. On a reachable Worker, ROUTER_CLOSE for a routerId that is a key of the
router map is accepted, destroys the Router stored under it, removes that id
from the router map and leaves every other router entry and the WebRtcServer
map unchanged; symmetrically WEBRTC_SERVER_CLOSE for an existing webRtcServerId
removes exactly that entry from the WebRtcServer map and leaves every other
WebRtcServer entry and the router map unchanged. -/
theorem Worker.close_entity_frame (env : Env) (events : List Event) (request : ChannelRequest)
    (id : String) :
    (request.methodId = MethodId.ROUTER_CLOSE →
      request.internal.find "routerId" = some (Json.string id) →
      id ∈ (Worker.run Worker.init events).mapRouters →
        (Worker.HandleRequest env (Worker.run Worker.init events) request).result
          = Except.ok () ∧
        (Worker.HandleRequest env (Worker.run Worker.init events) request).accepts = 1 ∧
        (∀ r, (Worker.run Worker.init events).mapRouters.lookup id = some r →
          (Worker.HandleRequest env (Worker.run Worker.init events) request).trace
            = [Effect.deleteRouter r, Effect.accept request.id none]) ∧
        id ∉ (Worker.HandleRequest env (Worker.run Worker.init events) request).worker.mapRouters ∧
        (∀ k, k ≠ id →
          (Worker.HandleRequest env (Worker.run Worker.init events)
              request).worker.mapRouters.lookup k
            = (Worker.run Worker.init events).mapRouters.lookup k) ∧
        (Worker.HandleRequest env (Worker.run Worker.init events) request).worker.mapWebRtcServers
          = (Worker.run Worker.init events).mapWebRtcServers ∧
        (Worker.HandleRequest env (Worker.run Worker.init events) request).worker.closed
          = (Worker.run Worker.init events).closed) ∧
    (request.methodId = MethodId.WEBRTC_SERVER_CLOSE →
      request.internal.find "webRtcServerId" = some (Json.string id) →
      id ∈ (Worker.run Worker.init events).mapWebRtcServers →
        (Worker.HandleRequest env (Worker.run Worker.init events) request).result
          = Except.ok () ∧
        (Worker.HandleRequest env (Worker.run Worker.init events) request).accepts = 1 ∧
        (∀ s, (Worker.run Worker.init events).mapWebRtcServers.lookup id = some s →
          (Worker.HandleRequest env (Worker.run Worker.init events) request).trace
            = [Effect.deleteWebRtcServer s, Effect.accept request.id none]) ∧
        id ∉ (Worker.HandleRequest env (Worker.run Worker.init events)
          request).worker.mapWebRtcServers ∧
        (∀ k, k ≠ id →
          (Worker.HandleRequest env (Worker.run Worker.init events)
              request).worker.mapWebRtcServers.lookup k
            = (Worker.run Worker.init events).mapWebRtcServers.lookup k) ∧
        (Worker.HandleRequest env (Worker.run Worker.init events) request).worker.mapRouters
          = (Worker.run Worker.init events).mapRouters ∧
        (Worker.HandleRequest env (Worker.run Worker.init events) request).worker.closed
          = (Worker.run Worker.init events).closed) := by
  have hinv := Worker.KeyedById_reachable events
  generalize Worker.run Worker.init events = w at hinv
  constructor
  · intro hm hid hkey
    obtain ⟨r, hr⟩ := Option.isSome_iff_exists.mp (AList.lookup_isSome.mpr hkey)
    have hrid : r.id = id := hinv.1 id r hr
    have hout : Worker.HandleRequest env w request =
        { worker := { w with mapRouters := w.mapRouters.erase id },
          trace := [Effect.deleteRouter r, Effect.accept request.id none],
          result := Except.ok () } := by
      simp [Worker.HandleRequest, hm, Worker.GetRouterFromInternal_string w _ _ hid, hr, hrid]
    rw [hout]
    refine ⟨rfl, by simp [Outcome.accepts, Effect.isAccept], ?_, ?_, ?_, rfl, rfl⟩
    · intro r2 hr2
      rw [hr] at hr2
      cases hr2
      rfl
    · simp [AList.mem_erase]
    · intro k hk
      exact AList.lookup_erase_ne hk
  · intro hm hid hkey
    obtain ⟨s, hs⟩ := Option.isSome_iff_exists.mp (AList.lookup_isSome.mpr hkey)
    have hsid : s.id = id := hinv.2 id s hs
    have hout : Worker.HandleRequest env w request =
        { worker := { w with mapWebRtcServers := w.mapWebRtcServers.erase id },
          trace := [Effect.deleteWebRtcServer s, Effect.accept request.id none],
          result := Except.ok () } := by
      simp [Worker.HandleRequest, hm, Worker.GetWebRtcServerFromInternal_string w _ _ hid, hs,
        hsid]
    rw [hout]
    refine ⟨rfl, by simp [Outcome.accepts, Effect.isAccept], ?_, ?_, ?_, rfl, rfl⟩
    · intro s2 hs2
      rw [hs] at hs2
      cases hs2
      rfl
    · simp [AList.mem_erase]
    · intro k hk
      exact AList.lookup_erase_ne hk

theorem Worker.close_entity_frame_witness :
    "r1" ∉ (Worker.HandleRequest Env.calm Worker.sample (closeRouterRequest "r1")).worker.mapRouters ∧
    "s1" ∉ (Worker.HandleRequest Env.calm Worker.sample
      (closeWebRtcServerRequest "s1")).worker.mapWebRtcServers :=
  ⟨((Worker.close_entity_frame Env.calm
      [Event.request Env.calm (createRouterRequest "r1"),
       Event.request Env.calm (createWebRtcServerRequest "s1")]
      (closeRouterRequest "r1") "r1").1 rfl rfl (by decide)).2.2.2.1,
   ((Worker.close_entity_frame Env.calm
      [Event.request Env.calm (createRouterRequest "r1"),
       Event.request Env.calm (createWebRtcServerRequest "s1")]
      (closeWebRtcServerRequest "s1") "s1").2 rfl rfl (by decide)).2.2.2.1⟩

/-! ## Listener callback and shutdown triggers -/

/-- C9. `OnRouterNeedWebRtcServer` returns the result of looking the id up in
the WebRtcServer map: the stored WebRtcServer when the id is a key, the absent
value when it is not.  It raises no error, makes no call on another object,
returns the same for whichever Router asks, and leaves the Worker unchanged. -/
theorem Worker.need_webrtc_server (w : Worker) (router : Router) (webRtcServerId : String) :
    (Worker.OnRouterNeedWebRtcServer w router webRtcServerId).result
        = Except.ok (w.mapWebRtcServers.lookup webRtcServerId) ∧
      (webRtcServerId ∈ w.mapWebRtcServers →
        ∃ s, w.mapWebRtcServers.lookup webRtcServerId = some s ∧
          (Worker.OnRouterNeedWebRtcServer w router webRtcServerId).result
            = Except.ok (some s)) ∧
      (webRtcServerId ∉ w.mapWebRtcServers →
        (Worker.OnRouterNeedWebRtcServer w router webRtcServerId).result = Except.ok none) ∧
      (Worker.OnRouterNeedWebRtcServer w router webRtcServerId).threw = false ∧
      (∀ other : Router,
        Worker.OnRouterNeedWebRtcServer w other webRtcServerId
          = Worker.OnRouterNeedWebRtcServer w router webRtcServerId) ∧
      (Worker.OnRouterNeedWebRtcServer w router webRtcServerId).trace = [] ∧
      (Worker.OnRouterNeedWebRtcServer w router webRtcServerId).worker = w := by
  have hres : (Worker.OnRouterNeedWebRtcServer w router webRtcServerId).result
      = Except.ok (w.mapWebRtcServers.lookup webRtcServerId) := by
    unfold Worker.OnRouterNeedWebRtcServer
    cases w.mapWebRtcServers.lookup webRtcServerId <;> rfl
  refine ⟨hres, ?_, ?_, ?_, ?_, ?_, ?_⟩
  · intro hkey
    obtain ⟨s, hs⟩ := Option.isSome_iff_exists.mp (AList.lookup_isSome.mpr hkey)
    exact ⟨s, hs, by rw [hres, hs]⟩
  · intro hkey
    rw [hres, AList.lookup_eq_none.mpr hkey]
  · simp [Outcome.threw, hres]
  · intro other
    rfl
  · unfold Worker.OnRouterNeedWebRtcServer
    cases w.mapWebRtcServers.lookup webRtcServerId <;> rfl
  · unfold Worker.OnRouterNeedWebRtcServer
    cases w.mapWebRtcServers.lookup webRtcServerId <;> rfl

/-- C10. On a Worker that is not closed, each shutdown trigger (OnChannelClosed,
OnPayloadChannelClosed, OnSignal with SIGINT, OnSignal with SIGTERM) leaves the
Worker closed with both maps empty, and OnSignal with any other signal number
makes no call and leaves the Worker state unchanged. -/
theorem Worker.shutdown_triggers (w : Worker) (hopen : w.closed = false) :
    ((Worker.OnChannelClosed w).worker.closed = true ∧
      (Worker.OnChannelClosed w).worker.mapRouters = ∅ ∧
      (Worker.OnChannelClosed w).worker.mapWebRtcServers = ∅) ∧
    ((Worker.OnPayloadChannelClosed w).worker.closed = true ∧
      (Worker.OnPayloadChannelClosed w).worker.mapRouters = ∅ ∧
      (Worker.OnPayloadChannelClosed w).worker.mapWebRtcServers = ∅) ∧
    ((Worker.OnSignal w SIGINT).worker.closed = true ∧
      (Worker.OnSignal w SIGINT).worker.mapRouters = ∅ ∧
      (Worker.OnSignal w SIGINT).worker.mapWebRtcServers = ∅) ∧
    ((Worker.OnSignal w SIGTERM).worker.closed = true ∧
      (Worker.OnSignal w SIGTERM).worker.mapRouters = ∅ ∧
      (Worker.OnSignal w SIGTERM).worker.mapWebRtcServers = ∅) ∧
    (∀ signum : Int, signum ≠ SIGINT → signum ≠ SIGTERM →
      (Worker.OnSignal w signum).worker = w ∧
      (Worker.OnSignal w signum).worker.closed = false ∧
      (Worker.OnSignal w signum).trace = [] ∧
      (Worker.OnSignal w signum).result = Except.ok ()) := by
  have hclose := Worker.Close_of_open w hopen
  refine ⟨?_, ?_, ?_, ?_, ?_⟩
  · simp [Worker.OnChannelClosed, hclose]
  · simp [Worker.OnPayloadChannelClosed, hclose]
  · rw [Worker.OnSignal_shutdown w SIGINT hopen (Or.inl rfl), hclose]
    exact ⟨rfl, rfl, rfl⟩
  · rw [Worker.OnSignal_shutdown w SIGTERM hopen (Or.inr rfl), hclose]
    exact ⟨rfl, rfl, rfl⟩
  · intro signum h1 h2
    rw [Worker.OnSignal_other w signum h1 h2]
    exact ⟨rfl, hopen, rfl, rfl⟩

theorem Worker.shutdown_triggers_witness :
    (Worker.OnSignal Worker.sample SIGTERM).worker.closed = true ∧
      (Worker.OnSignal Worker.sample SIGTERM).worker.mapRouters = ∅ ∧
      (Worker.OnSignal Worker.sample SIGTERM).worker.mapWebRtcServers = ∅ :=
  (Worker.shutdown_triggers Worker.sample rfl).2.2.2.1

/-! ## Closing twice -/

/-- C11. `Close` is idempotent: for every Worker, a second `Close` after the
first leaves the same Worker and adds nothing to the sequence of teardown
calls; and once the closed flag is set, `Close`, the destructor, a WORKER_CLOSE
request and `OnSignal` with any signal number make no call at all (nothing is
destroyed, no channel is closed), raise nothing and leave the Worker as it
is. -/
theorem Worker.Close_idempotent (w : Worker) :
    (Worker.Close (Worker.Close w).worker).worker = (Worker.Close w).worker ∧
      (Worker.Close w).trace ++ (Worker.Close (Worker.Close w).worker).trace
        = (Worker.Close w).trace ∧
      (Worker.Close w).worker.closed = true ∧
      (w.closed = true →
        Worker.Close w = { worker := w, trace := [], result := Except.ok () } ∧
        Worker.destructor w = { worker := w, trace := [], result := Except.ok () } ∧
        (∀ (env : Env) (request : ChannelRequest),
          request.methodId = MethodId.WORKER_CLOSE →
            Worker.HandleRequest env w request
              = { worker := w, trace := [], result := Except.ok () }) ∧
        (∀ signum : Int,
          Worker.OnSignal w signum = { worker := w, trace := [], result := Except.ok () })) := by
  have hflag : (Worker.Close w).worker.closed = true := by
    cases hc : w.closed with
    | true => simp [Worker.Close_of_closed w hc, hc]
    | false => simp [Worker.Close_of_open w hc]
  have hsecond := Worker.Close_of_closed (Worker.Close w).worker hflag
  refine ⟨by rw [hsecond], by rw [hsecond, List.append_nil], hflag, ?_⟩
  intro hc
  refine ⟨Worker.Close_of_closed w hc, by simp [Worker.destructor, hc], ?_, ?_⟩
  · intro env request hm
    simp [Worker.HandleRequest, hm, hc]
  · intro signum
    exact Worker.OnSignal_of_closed w signum hc

theorem Worker.Close_idempotent_witness :
    Worker.OnSignal (Worker.Close Worker.sample).worker SIGINT
      = { worker := (Worker.Close Worker.sample).worker, trace := [], result := Except.ok () } :=
  ((Worker.Close_idempotent (Worker.Close Worker.sample).worker).2.2.2 rfl).2.2.2 SIGINT

/-! ## The maps are keyed by entity id -/

/-- C12. In every Worker reached from the initial one by any sequence of
events, each router entry is stored under the `id` of the Router it holds and
each WebRtcServer entry under the `id` of the WebRtcServer it holds.  Hence
ROUTER_CLOSE and WEBRTC_SERVER_CLOSE, which look the entity up by the requested
id and erase by the entity's own `id`, erase the entry that was looked up: the
map afterwards is the map before without the requested key, and the entity
destroyed is the one found. -/
theorem Worker.keyed_by_id (events : List Event) (env : Env) (request : ChannelRequest)
    (id : String) :
    (∀ k r, (Worker.run Worker.init events).mapRouters.lookup k = some r → r.id = k) ∧
    (∀ k s, (Worker.run Worker.init events).mapWebRtcServers.lookup k = some s → s.id = k) ∧
    (∀ r, request.methodId = MethodId.ROUTER_CLOSE →
      request.internal.find "routerId" = some (Json.string id) →
      (Worker.run Worker.init events).mapRouters.lookup id = some r →
        (Worker.HandleRequest env (Worker.run Worker.init events) request).worker.mapRouters
          = (Worker.run Worker.init events).mapRouters.erase id ∧
        (Worker.HandleRequest env (Worker.run Worker.init events)
          request).worker.mapRouters.lookup id = none ∧
        (Worker.HandleRequest env (Worker.run Worker.init events) request).trace
          = [Effect.deleteRouter r, Effect.accept request.id none]) ∧
    (∀ s, request.methodId = MethodId.WEBRTC_SERVER_CLOSE →
      request.internal.find "webRtcServerId" = some (Json.string id) →
      (Worker.run Worker.init events).mapWebRtcServers.lookup id = some s →
        (Worker.HandleRequest env (Worker.run Worker.init events)
          request).worker.mapWebRtcServers
          = (Worker.run Worker.init events).mapWebRtcServers.erase id ∧
        (Worker.HandleRequest env (Worker.run Worker.init events)
          request).worker.mapWebRtcServers.lookup id = none ∧
        (Worker.HandleRequest env (Worker.run Worker.init events) request).trace
          = [Effect.deleteWebRtcServer s, Effect.accept request.id none]) := by
  have hinv := Worker.KeyedById_reachable events
  generalize Worker.run Worker.init events = w at hinv
  refine ⟨hinv.1, hinv.2, ?_, ?_⟩
  · intro r hm hid hr
    have hrid : r.id = id := hinv.1 id r hr
    have hout : Worker.HandleRequest env w request =
        { worker := { w with mapRouters := w.mapRouters.erase r.id },
          trace := [Effect.deleteRouter r, Effect.accept request.id none],
          result := Except.ok () } := by
      simp [Worker.HandleRequest, hm, Worker.GetRouterFromInternal_string w _ _ hid, hr]
    rw [hout, hrid]
    exact ⟨rfl, AList.lookup_erase id w.mapRouters, rfl⟩
  · intro s hm hid hs
    have hsid : s.id = id := hinv.2 id s hs
    have hout : Worker.HandleRequest env w request =
        { worker := { w with mapWebRtcServers := w.mapWebRtcServers.erase s.id },
          trace := [Effect.deleteWebRtcServer s, Effect.accept request.id none],
          result := Except.ok () } := by
      simp [Worker.HandleRequest, hm, Worker.GetWebRtcServerFromInternal_string w _ _ hid, hs]
    rw [hout, hsid]
    exact ⟨rfl, AList.lookup_erase id w.mapWebRtcServers, rfl⟩

theorem Worker.keyed_by_id_witness :
    (Worker.HandleRequest Env.calm Worker.sample (closeRouterRequest "r1")).worker.mapRouters
      = Worker.sample.mapRouters.erase "r1" :=
  ((Worker.keyed_by_id
    [Event.request Env.calm (createRouterRequest "r1"),
     Event.request Env.calm (createWebRtcServerRequest "s1")]
    Env.calm (closeRouterRequest "r1") "r1").2.2.1 { id := "r1" } rfl rfl (by decide)).1
